import Mathlib

set_option maxRecDepth 8000

/- Verification development for the sudoku solver repository.  The canonical
   implementation is src/sudoku.py (SudokuState / SudokuSolver); the historical
   variant src/soduku.py (SodukuSolver) is embedded separately with the prefix
   su_.  Grids are embedded as lists of rows of naturals.  All numpy indexing
   performed by the algorithms is in bounds, so cell lookup uses getD with
   default 0. -/

/-- Python exception values observable from the embedded code. -/
inductive PyErr where
  | valueError (msg : String)
  | invalidConfiguration (u : List Nat)
  | assertionError
  | nameError
  | indexError
  deriving DecidableEq, Repr

deriving instance DecidableEq for Except

abbrev Grid := List (List Nat)

/-- Entry of the grid at row i, column j (numpy `config[i, j]`). -/
def cell (g : Grid) (i j : Nat) : Nat := (g.getD i []).getD j 0

/-- numpy `config.shape == (9, 9)`. -/
def shape9x9 (g : Grid) : Bool := g.length == 9 && g.all (fun r => r.length == 9)

def dimMsg : String := "Invalid input configuration dimension"

def solvedMsg : String := "The input puzzle has already been solved."

def suDimMsg : String := "Invalid input puzzle dimension"

def suInvalidMsg : String := "Invalid input puzzle"

def suSubunitMsg : String := "Invalid subunit dimension"

/-- Number of occurrences of v in a list. -/
def cnt (v : Nat) : List Nat → Nat
  | [] => 0
  | w :: rest => (if w = v then 1 else 0) + cnt v rest

/-- Row i of the grid, as flattened by numpy slicing `config[i, :]`. -/
def rowUnit (g : Grid) (i : Nat) : List Nat :=
  [cell g i 0, cell g i 1, cell g i 2, cell g i 3, cell g i 4,
   cell g i 5, cell g i 6, cell g i 7, cell g i 8]

/-- Column j of the grid, `config[:, j]`. -/
def colUnit (g : Grid) (j : Nat) : List Nat :=
  [cell g 0 j, cell g 1 j, cell g 2 j, cell g 3 j, cell g 4 j,
   cell g 5 j, cell g 6 j, cell g 7 j, cell g 8 j]

/-- Block (bi, bj) of the grid, `config[3*bi:3*(bi+1), 3*bj:3*(bj+1)]`
flattened row-major. -/
def blockUnit (g : Grid) (bi bj : Nat) : List Nat :=
  [cell g (3*bi) (3*bj), cell g (3*bi) (3*bj+1), cell g (3*bi) (3*bj+2),
   cell g (3*bi+1) (3*bj), cell g (3*bi+1) (3*bj+1), cell g (3*bi+1) (3*bj+2),
   cell g (3*bi+2) (3*bj), cell g (3*bi+2) (3*bj+1), cell g (3*bi+2) (3*bj+2)]

/-- Spec-side: the number of 0-valued (empty) cells in the whole grid,
counted row by row. -/
def countZeros (g : Grid) : Nat :=
  cnt 0 (rowUnit g 0) + cnt 0 (rowUnit g 1) + cnt 0 (rowUnit g 2) +
  cnt 0 (rowUnit g 3) + cnt 0 (rowUnit g 4) + cnt 0 (rowUnit g 5) +
  cnt 0 (rowUnit g 6) + cnt 0 (rowUnit g 7) + cnt 0 (rowUnit g 8)

/-- Spec-side: some numeral 1-9 occurs at least twice in the unit. -/
def dupU (u : List Nat) : Bool :=
  (List.range 10).any fun v => v != 0 && decide (2 ≤ cnt v u)

/-- The 27 units of the grid: 9 rows, 9 columns, 9 blocks. -/
def gridUnits (g : Grid) : List (List Nat) :=
  [rowUnit g 0, rowUnit g 1, rowUnit g 2, rowUnit g 3, rowUnit g 4,
   rowUnit g 5, rowUnit g 6, rowUnit g 7, rowUnit g 8,
   colUnit g 0, colUnit g 1, colUnit g 2, colUnit g 3, colUnit g 4,
   colUnit g 5, colUnit g 6, colUnit g 7, colUnit g 8,
   blockUnit g 0 0, blockUnit g 0 1, blockUnit g 0 2,
   blockUnit g 1 0, blockUnit g 1 1, blockUnit g 1 2,
   blockUnit g 2 0, blockUnit g 2 1, blockUnit g 2 2]

/-- Spec-side: some row, column or block contains a duplicate numeral 1-9. -/
def gridHasDup (g : Grid) : Bool := (gridUnits g).any dupU

/-- Spec-side: numeral v occurs somewhere in row i. -/
def occursInRow (g : Grid) (i v : Nat) : Bool :=
  (List.range 9).any fun j => cell g i j == v

/-- Spec-side: every entry of the grid lies in 0..9 (the spec's input
domain). -/
abbrev entriesLE (g : Grid) : Prop := ∀ r ∈ g, ∀ v ∈ r, v ≤ 9

/-- Whether an exception is the InvalidConfiguration error. -/
def errInvalid : PyErr → Bool
  | .invalidConfiguration _ => true
  | _ => false

/-- Whether a computation ended in an InvalidConfiguration error. -/
def resInvalid {α : Type} : Except PyErr α → Bool
  | .error e => errInvalid e
  | .ok _ => false

/- ------------------------------------------------------------------ -/
/- Candidate mask, src/sudoku.py SudokuState.__gen_valid_decisions_array.
   The loop starts every flag true and clears row_arr[i, v-1], col_arr[j, v-1]
   and square_arr[i/3, j/3, v-1] for every cell (i, j) whose value v satisfies
   `self.config[i,j] > 0`.  Hence a flag is false iff such a cell exists. -/

/-- row_arr[i, num] is false (masked) iff some cell of row i holds value > 0
with value - 1 = num. -/
def rowMasked (g : Grid) (i num : Nat) : Bool :=
  (List.range 9).any fun j => decide (0 < cell g i j) && (cell g i j - 1 == num)

def colMasked (g : Grid) (j num : Nat) : Bool :=
  (List.range 9).any fun i => decide (0 < cell g i j) && (cell g i j - 1 == num)

def sqMasked (g : Grid) (bi bj num : Nat) : Bool :=
  (List.range 3).any fun di => (List.range 3).any fun dj =>
    decide (0 < cell g (3*bi+di) (3*bj+dj)) && (cell g (3*bi+di) (3*bj+dj) - 1 == num)

/-- valid_decisions[i, j, num] = row_arr[i, num] & col_arr[j, num]
& square_arr[i/3, j/3, num]  (numeral num+1 legal at (i, j)). -/
def validDecisions (g : Grid) (i j num : Nat) : Bool :=
  !rowMasked g i num && !colMasked g j num && !sqMasked g (i/3) (j/3) num

/- ------------------------------------------------------------------ -/
/- Priority list, src/sudoku.py SudokuState.__gen_priority_list. -/

/-- priority2d[i, j] = numpy.sum(valid_decisions, 2)[i, j]. -/
def priorityCount (g : Grid) (i j : Nat) : Nat :=
  (List.range 9).countP fun num => validDecisions g i j num

/-- All 81 cell coordinates in row-major scan order. -/
def cellIdxs : List (Nat × Nat) :=
  (List.range 9).flatMap fun i => (List.range 9).map fun j => (i, j)

/-- prioritytbl: (i, j, priority2d[i, j]) for every empty cell, scan order. -/
def priorityTbl (g : Grid) : List (Nat × Nat × Nat) :=
  (cellIdxs.filter fun ij => cell g ij.1 ij.2 == 0).map
    fun ij => (ij.1, ij.2, priorityCount g ij.1 ij.2)

/-- Stable insertion by the third component (the candidate count): an element
is inserted before the first strictly-greater key, after equal keys, which is
exactly the stability guarantee of Python's `sorted(key=lambda x: x[2])`. -/
def insertByKey (x : Nat × Nat × Nat) : List (Nat × Nat × Nat) → List (Nat × Nat × Nat)
  | [] => [x]
  | y :: ys => if x.2.2 ≤ y.2.2 then x :: y :: ys else y :: insertByKey x ys

def sortByCount (l : List (Nat × Nat × Nat)) : List (Nat × Nat × Nat) :=
  l.foldr insertByKey []

/-- `[(x[0], x[1]) for x in sorted(prioritytbl, key=lambda x: x[2]) if x[2] != 0]`. -/
def priorityList (g : Grid) : List (Nat × Nat) :=
  ((sortByCount (priorityTbl g)).filter fun x => x.2.2 != 0).map fun x => (x.1, x.2.1)

/- ------------------------------------------------------------------ -/
/- SudokuState: configuration plus enumeration cursor and decision cache.
   valid_decisions and the shape of priority_list never change after
   construction; valid_decisions is recovered from config via validDecisions. -/

structure SudokuState where
  config : Grid
  priority_list : List (Nat × Nat)
  current_level : Nat
  current_choice : Nat
  decision_cache : List (Nat × Nat × Nat)
  deriving DecidableEq, Repr

/-- SudokuState.__init__ for a 9x9 grid (dimension check done by callers that
can receive other shapes). -/
def mkState (g : Grid) : SudokuState :=
  { config := g
    priority_list := priorityList g
    current_level := 0
    current_choice := 0
    decision_cache := [] }

/-- Inner loop of gen_decision: `for j in range(self.current_choice,
len(choices))` over the 9 choices of the cell `coord`.  The fuel argument only
bounds the recursion (10 is always enough); j counts up to 9.
Faithfully kept oddities of the source: on the returning branch the source
runs `self.current_choice += 1` and then `if j == len(choices):` whose body
(`self.current_choice == 0`, a no-op comparison, and `self.current_level += 1`)
is dead because j < 9 = len(choices); the end-of-cell reset
`if j == (len(choices) - 1): self.current_choice = 0` runs only on iterations
that do not return. -/
def genDecisionInner (g : Grid) (coord : Nat × Nat) (n : Nat) :
    Nat → Nat → SudokuState → SudokuState × Option (Nat × Nat × Nat)
  | 0, _, s => (s, none)
  | fuel+1, j, s =>
    if j < 9 then
      let s1 := { s with current_choice := j }
      if validDecisions g coord.1 coord.2 j then
        let s2 := { s1 with decision_cache := s1.decision_cache ++ [(coord.1, coord.2, j + 1)] }
        if n == s2.decision_cache.length - 1 then
          let s3 := { s2 with current_choice := s2.current_choice + 1 }
          let s4 := if j == 9 then { s3 with current_level := s3.current_level + 1 } else s3
          (s4, some (coord.1, coord.2, j + 1))
        else
          let s3 := if j == 8 then { s2 with current_choice := 0 } else s2
          genDecisionInner g coord n fuel (j+1) s3
      else
        let s2 := if j == 8 then { s1 with current_choice := 0 } else s1
        genDecisionInner g coord n fuel (j+1) s2
    else (s, none)

/-- Outer loop of gen_decision: `for i in range(self.current_level,
len(self.priority_list))`.  Each iteration sets current_level to i and scans
the cell's choices starting from the current current_choice. -/
def genDecisionOuter (g : Grid) (n : Nat) :
    Nat → Nat → Nat → SudokuState → SudokuState × (Nat × Nat × Nat)
  | 0, _, _, s => (s, (0, 0, 0))
  | fuel+1, i, iEnd, s =>
    if i < iEnd then
      let s1 := { s with current_level := i }
      let coord := s1.priority_list.getD i (0, 0)
      match genDecisionInner g coord n 10 s1.current_choice s1 with
      | (s2, some d) => (s2, d)
      | (s2, none) => genDecisionOuter g n fuel (i+1) iEnd s2
    else (s, (0, 0, 0))

/-- SudokuState.gen_decision: return the cached nth decision if present,
otherwise resume scanning from the cursor; (0, 0, 0) signals no decision. -/
def genDecision (s : SudokuState) (n : Nat) : SudokuState × (Nat × Nat × Nat) :=
  if n < s.decision_cache.length then
    (s, s.decision_cache.getD n (0, 0, 0))
  else
    genDecisionOuter s.config n (s.priority_list.length + 1)
      s.current_level s.priority_list.length s

/-- numpy assignment `new_config[r, c] = v` on a copy of the grid. -/
def setCell (g : Grid) (r c v : Nat) : Grid :=
  g.set r ((g.getD r []).set c v)

/-- SudokuState.gen_config: build the successor state from the nth decision;
none models the OutOfDecisions exception (StopIteration in __next__).
The mutated parent state is returned as well, since gen_decision advances the
parent's cursor and cache in place. -/
def gen_config (s : SudokuState) (n : Nat) : SudokuState × Option SudokuState :=
  match genDecision s n with
  | (s1, d) =>
    if d == ((0, 0, 0) : Nat × Nat × Nat) then (s1, none)
    else (s1, some (mkState (setCell s1.config d.1 d.2.1 d.2.2)))

/- ------------------------------------------------------------------ -/
/- Validity check, src/sudoku.py SudokuState.__is_valid_unit / is_valid. -/

/-- `check[v] += 1` on a tally function. -/
def bump (check : Nat → Nat) (v : Nat) : Nat → Nat :=
  fun k => if k = v then check k + 1 else check k

/-- The tally loop of __is_valid_unit: `check = [0] * 10` and, for each value
v of the unit, `check[v] += 1`, raising InvalidConfiguration on the second
occurrence of a nonzero value; values above 9 overflow the 10-element list
(IndexError).  The accumulator is the tally function. -/
def unitScanGo (u : List Nat) : List Nat → (Nat → Nat) → Except PyErr (Nat → Nat)
  | [], check => .ok check
  | v :: rest, check =>
    if 10 ≤ v then .error .indexError
    else if bump check v v > 1 && v != 0 then .error (.invalidConfiguration u)
    else unitScanGo u rest (bump check v)

/-- SudokuState.__is_valid_unit: asserts the unit has 9 squares, tallies each
value, raises InvalidConfiguration on a duplicate nonzero value, and returns
the number of zeros. -/
def isValidUnit (u : List Nat) : Except PyErr Nat :=
  if u.length == 9 then
    match unitScanGo u u (fun _ => 0) with
    | .error e => .error e
    | .ok check => .ok (check 0)
  else .error .assertionError

/-- The row/column scan of is_valid.  The source discards the returned counts
(the comparisons `... < 0` are no-op expression statements); only the
exceptions raised by __is_valid_unit propagate. -/
def scanRowsCols (g : Grid) : List Nat → Except PyErr Unit
  | [] => .ok ()
  | i :: rest =>
    match isValidUnit (rowUnit g i) with
    | .error e => .error e
    | .ok _ =>
      match isValidUnit (colUnit g i) with
      | .error e => .error e
      | .ok _ => scanRowsCols g rest

/-- Block coordinates in the scan order of is_valid. -/
def blockCoords : List (Nat × Nat) :=
  [(0,0), (0,1), (0,2), (1,0), (1,1), (1,2), (2,0), (2,1), (2,2)]

/-- The block loop of is_valid: `total += self.__is_valid_unit(...)`. -/
def sumBlocks (g : Grid) : List (Nat × Nat) → Nat → Except PyErr Nat
  | [], total => .ok total
  | b :: rest, total =>
    match isValidUnit (blockUnit g b.1 b.2) with
    | .error e => .error e
    | .ok r => sumBlocks g rest (total + r)

/-- SudokuState.is_valid: scan rows and columns (for the duplicate exception
only), then return the summed zero counts of the nine blocks. -/
def isValid (g : Grid) : Except PyErr Nat :=
  match scanRowsCols g [0, 1, 2, 3, 4, 5, 6, 7, 8] with
  | .error e => .error e
  | .ok _ => sumBlocks g blockCoords 0

/- ------------------------------------------------------------------ -/
/- SudokuSolver, src/sudoku.py. -/

structure SudokuSolver where
  state_stack : List SudokuState
  generated_states : List Grid
  solution : Option SudokuState
  step : Nat
  limit : Nat
  check_identical_state : Bool
  deriving DecidableEq, Repr

/-- The solver record produced by a successful construction. -/
def initSolver (g : Grid) (limit : Nat) (cis : Bool) : SudokuSolver :=
  { state_stack := [mkState g]
    generated_states := []
    solution := none
    step := 0
    limit := limit
    check_identical_state := cis }

/-- SudokuSolver.__init__: SudokuState's constructor raises the dimension
ValueError for a non-9x9 input; is_valid may raise InvalidConfiguration; a
validity of 0 raises the already-solved ValueError.  The
check_identical_state argument is stored but, faithfully to the source,
never consulted by solve. -/
def mkSolver (g : Grid) (limit : Nat) (cis : Bool) : Except PyErr SudokuSolver :=
  if shape9x9 g then
    match isValid g with
    | .error e => .error e
    | .ok validity =>
      if validity == 0 then .error (.valueError solvedMsg)
      else .ok (initSolver g limit cis)
  else .error (.valueError dimMsg)

/-- One iteration of the while loop of SudokuSolver.solve.  Evaluating the
loop condition indexes state_stack[-1] first: on an empty stack this raises
IndexError.  Inside the body the step counter is incremented before the
successor is generated; next(...) mutates the top state (cursor and cache),
so the top is replaced by its mutated version; a StopIteration pops it;
a duplicate child is discarded (continue); otherwise the child is recorded
and pushed.  `Sum.inl` is a state from which the loop continues, `Sum.inr`
is the loop having exited with solution assigned. -/
def solveStep (sv : SudokuSolver) : Except PyErr (Sum SudokuSolver SudokuSolver) :=
  match sv.state_stack.getLast? with
  | none => .error .indexError
  | some top =>
    match isValid top.config with
    | .error e => .error e
    | .ok validity =>
      if 0 < validity ∧ sv.step < sv.limit then
        let sv1 := { sv with step := sv.step + 1 }
        match gen_config top top.decision_cache.length with
        | (_, none) =>
          .ok (.inl { sv1 with state_stack := sv1.state_stack.dropLast })
        | (topMut, some child) =>
          let stack1 := sv1.state_stack.dropLast ++ [topMut]
          if sv1.generated_states.contains child.config then
            .ok (.inl { sv1 with state_stack := stack1 })
          else
            .ok (.inl { sv1 with
                          state_stack := stack1 ++ [child],
                          generated_states := sv1.generated_states ++ [child.config] })
      else
        .ok (.inr { sv with solution := some top })

/-- Iterate solveStep; fuel bounds the number of iterations modelled.  Fuel
exhaustion returns the in-progress solver unchanged (inl). -/
def solveFuel : Nat → SudokuSolver → Except PyErr (Sum SudokuSolver SudokuSolver)
  | 0, sv => .ok (.inl sv)
  | fuel+1, sv =>
    match solveStep sv with
    | .error e => .error e
    | .ok (.inr done) => .ok (.inr done)
    | .ok (.inl nxt) => solveFuel fuel nxt

/-- Construct the solver and run at most fuel iterations of solve. -/
def runSolver (g : Grid) (limit : Nat) (cis : Bool) (fuel : Nat) :
    Except PyErr (Sum SudokuSolver SudokuSolver) :=
  Except.bind (mkSolver g limit cis) (fun sv => solveFuel fuel sv)

/-- The solver state reached after one successful driver iteration (used only
to phrase closed statements about solveStep). -/
def afterStep (sv : SudokuSolver) : SudokuSolver :=
  match solveStep sv with
  | .ok (.inl s) => s
  | .ok (.inr s) => s
  | .error _ => sv

/-- Observable summary of a solver result: (loop exited, step counter,
stack depth, number of recorded states). -/
def solverView (r : Except PyErr (Sum SudokuSolver SudokuSolver)) :
    Option (Bool × Nat × Nat × Nat) :=
  match r with
  | .ok (.inl sv) => some (false, sv.step, sv.state_stack.length, sv.generated_states.length)
  | .ok (.inr sv) => some (true, sv.step, sv.state_stack.length, sv.generated_states.length)
  | .error _ => none

/- ------------------------------------------------------------------ -/
/- Historical variant src/soduku.py (class SodukuSolver).  Python's asserts
   are enabled by default; where the claims also exercise the `python -O`
   semantics (asserts stripped), a second definition with suffix _noassert is
   provided.  The inputs handled by the claims are numpy arrays, so the
   isinstance asserts on array arguments hold and are not modelled; the
   shape asserts are. -/

/-- SodukuSolver.is_valid_unit with asserts enabled.  Its first statement is
`assert(isinstance(puzzle, numpy.ndarray))`, but no name `puzzle` is bound in
the static method's scope (its parameter is `unit`, and the module globals
are numpy, math and SodukuSolver), so evaluating the assert raises NameError
before the rest of the body is reached, for every argument. -/
def su_is_valid_unit (u : List Nat) : Except PyErr Int :=
  .error .nameError

/-- The tally loop shared by soduku.py's unit check: like unitScanGo, but a
duplicate nonzero value makes the function `return -1` (modelled as ok none)
instead of raising. -/
def suUnitScanGo : List Nat → (Nat → Nat) → Except PyErr (Option (Nat → Nat))
  | [], check => .ok (some check)
  | v :: rest, check =>
    if 10 ≤ v then .error .indexError
    else if bump check v v > 1 && v != 0 then .ok none
    else suUnitScanGo rest (bump check v)

/-- SodukuSolver.is_valid_unit under `python -O` (asserts stripped): the
explicit length check raises ValueError, a duplicate returns -1, otherwise
the number of zeros is returned. -/
def su_is_valid_unit_noassert (u : List Nat) : Except PyErr Int :=
  if u.length == 9 then
    match suUnitScanGo u (fun _ => 0) with
    | .error e => .error e
    | .ok none => .ok (-1)
    | .ok (some check) => .ok (Int.ofNat (check 0))
  else .error (.valueError suSubunitMsg)

/-- The row/column scan of is_valid_puzzle, parameterised by the unit check
in use; ok none models the early `return -1`. -/
def su_scanRowsCols (f : List Nat → Except PyErr Int) (g : Grid) :
    List Nat → Except PyErr (Option Unit)
  | [] => .ok (some ())
  | i :: rest =>
    match f (rowUnit g i) with
    | .error e => .error e
    | .ok r =>
      if r < 0 then .ok none
      else
        match f (colUnit g i) with
        | .error e => .error e
        | .ok r2 =>
          if r2 < 0 then .ok none
          else su_scanRowsCols f g rest

/-- The block loop of is_valid_puzzle: accumulates `total += result` but the
function ends with `return result`, so only the lexically last value of the
loop variable `result` (the last block scanned) is ever returned; ok none
models the early `return -1`. -/
def su_blocksLoop (f : List Nat → Except PyErr Int) (g : Grid) :
    List (Nat × Nat) → Int → Int → Except PyErr (Option Int)
  | [], _total, result => .ok (some result)
  | b :: rest, total, result =>
    match f (blockUnit g b.1 b.2) with
    | .error e => .error e
    | .ok r =>
      if r < 0 then .ok none
      else su_blocksLoop f g rest (total + r) r

/-- Body of SodukuSolver.is_valid_puzzle after its asserts, parameterised by
the unit check.  Note the final `return result` (not `return total`). -/
def su_is_valid_puzzle_body (f : List Nat → Except PyErr Int) (g : Grid) :
    Except PyErr Int :=
  match su_scanRowsCols f g [0, 1, 2, 3, 4, 5, 6, 7, 8] with
  | .error e => .error e
  | .ok none => .ok (-1)
  | .ok (some _) =>
    match su_blocksLoop f g blockCoords 0 0 with
    | .error e => .error e
    | .ok none => .ok (-1)
    | .ok (some result) => .ok result

/-- SodukuSolver.is_valid_puzzle with asserts enabled: the shape assert, then
the scan, whose first unit check (is_valid_unit) raises NameError. -/
def su_is_valid_puzzle (g : Grid) : Except PyErr Int :=
  if shape9x9 g then su_is_valid_puzzle_body su_is_valid_unit g
  else .error .assertionError

/-- SodukuSolver.is_valid_puzzle under `python -O`: asserts stripped, the
unit-check logic runs. -/
def su_is_valid_puzzle_noassert (g : Grid) : Except PyErr Int :=
  su_is_valid_puzzle_body su_is_valid_unit_noassert g

/-- SodukuSolver construction (the puzzle setter): dimension ValueError for a
non-9x9 input, then is_valid_puzzle; -1 raises the invalid ValueError, 0 the
already-solved ValueError. -/
def su_SodukuSolver_init (g : Grid) : Except PyErr Unit :=
  if shape9x9 g then
    match su_is_valid_puzzle g with
    | .error e => .error e
    | .ok v =>
      if v == -1 then .error (.valueError suInvalidMsg)
      else if v == 0 then .error (.valueError solvedMsg)
      else .ok ()
  else .error (.valueError suDimMsg)

/- Candidate mask of soduku.py, SodukuSolver.gen_valid_choices.  Identical in
   structure to __gen_valid_decisions_array except for the loop guard
   `if puzzle[i,j] > 1` (instead of `> 0`): cells holding the value 1 are
   skipped, so numeral 1 is never masked anywhere. -/

def su_rowMasked (g : Grid) (i num : Nat) : Bool :=
  (List.range 9).any fun j => decide (1 < cell g i j) && (cell g i j - 1 == num)

def su_colMasked (g : Grid) (j num : Nat) : Bool :=
  (List.range 9).any fun i => decide (1 < cell g i j) && (cell g i j - 1 == num)

def su_sqMasked (g : Grid) (bi bj num : Nat) : Bool :=
  (List.range 3).any fun di => (List.range 3).any fun dj =>
    decide (1 < cell g (3*bi+di) (3*bj+dj)) && (cell g (3*bi+di) (3*bj+dj) - 1 == num)

/-- valid_choices[i, j, num] of SodukuSolver.gen_valid_choices. -/
def su_gen_valid_choices (g : Grid) (i j num : Nat) : Bool :=
  !su_rowMasked g i num && !su_colMasked g j num && !su_sqMasked g (i/3) (j/3) num

/-- SodukuSolver.gen_priority_list: builds (i, j, count) for all 81 cells of
the valid-choices array (filled cells included), stably sorts by count, and
keeps every entry (no `if x[2] != 0` filter and no emptiness test). -/
def su_gen_priority_list (vc : Nat → Nat → Nat → Bool) : List (Nat × Nat) :=
  (sortByCount (cellIdxs.map fun ij =>
    (ij.1, ij.2, (List.range 9).countP fun num => vc ij.1 ij.2 num))).map
    fun x => (x.1, x.2.1)

/- ------------------------------------------------------------------ -/
/- Concrete grids used by the claims. -/

def z9 : List Nat := [0, 0, 0, 0, 0, 0, 0, 0, 0]

/-- A single 1 at (0, 0), everything else empty. -/
def G1 : Grid :=
  [[1, 0, 0, 0, 0, 0, 0, 0, 0], z9, z9, z9, z9, z9, z9, z9, z9]

/-- Bottom-right block completely and validly filled, all other 72 cells
empty. -/
def G2 : Grid :=
  [z9, z9, z9, z9, z9, z9,
   [0, 0, 0, 0, 0, 0, 1, 2, 3],
   [0, 0, 0, 0, 0, 0, 4, 5, 6],
   [0, 0, 0, 0, 0, 0, 7, 8, 9]]

/-- Cell (0,0) has the single candidate 9 (row 0 shows 1..7, column 0 shows
8); cell (0,8) has candidates 8 and 9; plenty of other empty cells. -/
def G4 : Grid :=
  [[0, 1, 2, 3, 4, 5, 6, 7, 0],
   z9, z9,
   [8, 0, 0, 0, 0, 0, 0, 0, 0],
   z9, z9, z9, z9, z9]

/-- A complete valid grid with cell (0,0) (value 1) removed: exactly one
empty cell whose single candidate is 1. -/
def G5 : Grid :=
  [[0, 2, 3, 4, 5, 6, 7, 8, 9],
   [4, 5, 6, 7, 8, 9, 1, 2, 3],
   [7, 8, 9, 1, 2, 3, 4, 5, 6],
   [2, 3, 4, 5, 6, 7, 8, 9, 1],
   [5, 6, 7, 8, 9, 1, 2, 3, 4],
   [8, 9, 1, 2, 3, 4, 5, 6, 7],
   [3, 4, 5, 6, 7, 8, 9, 1, 2],
   [6, 7, 8, 9, 1, 2, 3, 4, 5],
   [9, 1, 2, 3, 4, 5, 6, 7, 8]]

/-- A duplicate-free grid with exactly two empty cells, (5,5) and (8,4),
each of which has zero candidates (its row and column together show all nine
numerals).  Accepted by the constructor, but the search exhausts
immediately. -/
def G6 : Grid :=
  [[1, 2, 3, 4, 5, 6, 7, 8, 9],
   [4, 5, 6, 7, 8, 9, 1, 2, 3],
   [7, 8, 9, 1, 2, 3, 4, 5, 6],
   [2, 3, 4, 5, 6, 7, 8, 9, 1],
   [5, 6, 7, 8, 9, 1, 2, 3, 4],
   [8, 9, 1, 2, 3, 0, 5, 6, 7],
   [3, 4, 5, 6, 7, 8, 9, 1, 2],
   [6, 7, 8, 9, 1, 2, 3, 4, 5],
   [9, 1, 2, 3, 0, 4, 6, 7, 8]]

/-- An 8x9 grid (wrong dimension). -/
def G8x9 : Grid := [z9, z9, z9, z9, z9, z9, z9, z9]

/- ------------------------------------------------------------------ -/
/- Claim theorems: concrete evaluations. -/

/-- Claim C1 (code bug in src/soduku.py).  In the grid G1 the numeral 1
occupies cell (0,0), so by the claim the candidate mask must be false for
numeral 1 (mask index 0) at the row-0 cell (0,1).  The canonical
__gen_valid_decisions_array (src/sudoku.py) indeed masks it, but
gen_valid_choices (src/soduku.py) skips cells whose value is 1 because its
loop guard reads `puzzle[i,j] > 1`, and reports numeral 1 as still legal. -/
theorem soduku_mask_skips_numeral_one :
    occursInRow G1 0 1 = true ∧
    validDecisions G1 0 1 0 = false ∧
    su_gen_valid_choices G1 0 1 0 = true := by
  refine ⟨by decide, by decide, by decide⟩

/-- Claim C2 (code bug in src/soduku.py).  G2 is duplicate-free with 72 empty
cells; the canonical is_valid (src/sudoku.py) returns 72, but is_valid_puzzle
(src/soduku.py) ends with `return result` instead of `return total`, so under
`python -O` it returns the zero count of the last block only (0, announcing a
solved puzzle), and with asserts enabled it raises NameError outright. -/
theorem soduku_validity_counts_last_block_only :
    gridHasDup G2 = false ∧
    countZeros G2 = 72 ∧
    isValid G2 = Except.ok 72 ∧
    su_is_valid_puzzle_noassert G2 = Except.ok 0 ∧
    su_is_valid_puzzle G2 = Except.error PyErr.nameError := by
  refine ⟨by decide, by decide, by decide, by decide, by decide⟩

/-- Claim C3 (code bug in src/soduku.py).  gen_priority_list keeps all 81
cells: on G1 its first entry is the filled cell (0,0) (every count is 9
because the `> 1` guard masks nothing, and the stable sort preserves scan
order).  The canonical __gen_priority_list (src/sudoku.py) excludes the
filled cell. -/
theorem soduku_priority_list_keeps_filled_cells :
    cell G1 0 0 = 1 ∧
    (su_gen_priority_list (su_gen_valid_choices G1)).head? = some (0, 0) ∧
    (priorityList G1).contains (0, 0) = false := by
  refine ⟨by decide, by decide, by decide⟩

/-- Claim C4 (code bug in src/sudoku.py gen_decision).  On G4 the head of the
priority order is (0,0) with the single candidate 9; gen_decision 0 returns
(0,0,9) from choice index j = 8 and leaves current_choice = 9 — the reset to
0 sits after the return and the in-branch reset is a dead no-op comparison —
so every later cell's inner scan `range(9, 9)` is empty and gen_decision 1
returns the sentinel (0,0,0), even though the decision (0,8,8) (numeral 8 at
the priority cell (0,8)) is legal and was never produced. -/
theorem gen_decision_premature_sentinel :
    (genDecision (mkState G4) 0).2 = (0, 0, 9) ∧
    (genDecision (genDecision (mkState G4) 0).1 1).2 = (0, 0, 0) ∧
    (mkState G4).priority_list.contains (0, 8) = true ∧
    validDecisions G4 0 8 7 = true ∧
    ((genDecision (genDecision (mkState G4) 0).1 1).1.decision_cache.contains
      (0, 8, 8)) = false := by
  refine ⟨by decide, by decide, by decide, by decide, by decide⟩

/-- Claim C5 (code bug in src/sudoku.py gen_decision).  On G5 (one empty cell
(0,0), single legal decision (0,0,1)) a first call gen_decision 1 exhausts the
scan, caches (0,0,1), resets the cursor to (level 0, choice 0) and returns the
sentinel; an identical second call rescans the last cell, appends (0,0,1)
again and returns it.  The same index thus yields two different results
(idempotence fails), and afterwards the cached decisions at indices 0 and 1 —
the values gen_decision returns for n = 0 and n = 1 — are equal instead of
strictly increasing (monotonicity fails). -/
theorem gen_decision_not_idempotent :
    (genDecision (mkState G5) 1).2 = (0, 0, 0) ∧
    (genDecision (genDecision (mkState G5) 1).1 1).2 = (0, 0, 1) ∧
    (genDecision (genDecision (mkState G5) 1).1 1).1.decision_cache
      = [(0, 0, 1), (0, 0, 1)] ∧
    (genDecision (genDecision (genDecision (mkState G5) 1).1 1).1 0).2 = (0, 0, 1) := by
  refine ⟨by decide, by decide, by decide, by decide⟩

/-- Claim C7 (code bug in src/sudoku.py solve).  G6 passes construction
(duplicate-free, two empty cells), but both empty cells have zero candidates,
so the root's enumerator is exhausted at once: the first iteration pops the
root, and the next evaluation of the loop condition indexes state_stack[-1]
on an empty list — IndexError instead of a normal Exhausted termination. -/
theorem solve_raises_index_error_on_exhaustion :
    gridHasDup G6 = false ∧
    isValid G6 = Except.ok 2 ∧
    (mkSolver G6 100 true).map (fun sv => sv.state_stack.length) = Except.ok 1 ∧
    runSolver G6 100 true 10 = Except.error PyErr.indexError := by
  refine ⟨by decide, by decide, by decide, by decide⟩

/-- Claim C6, counterexample.  On G6 the first driver iteration hits
StopIteration and pops the root: no configuration is pushed (stack length
drops from 1 to 0) yet the step counter rises from 0 to 1, because
`self.step += 1` runs before the successor is generated. -/
theorem step_counter_increments_on_pop :
    (mkSolver G6 100 true).map (fun sv => (sv.step, sv.state_stack.length))
      = Except.ok (0, 1) ∧
    solverView (runSolver G6 100 true 1) = some (false, 1, 0, 0) := by
  refine ⟨by decide, by decide⟩

/-- Claim C9 (code bug in src/sudoku.py).  The check_identical_state argument
is accepted (and stored here for observability) but never consulted by solve:
with the option disabled the first iteration on G5 still records the pushed
child in generated_states (length 1 after one step). -/
theorem dedup_flag_ignored :
    (mkSolver G5 100 false).map (fun sv => sv.check_identical_state)
      = Except.ok false ∧
    solverView (runSolver G5 100 false 1) = some (false, 1, 2, 1) := by
  refine ⟨by decide, by decide⟩

/-- Claim C10, counterexample.  SodukuSolver construction does not fail with
NameError for every input whatsoever: an 8x9 input fails the dimension check
first and raises a plain ValueError (and is_valid_puzzle's own shape assert
raises AssertionError), neither of which is a NameError. -/
theorem soduku_dimension_error_not_name_error :
    su_SodukuSolver_init G8x9 = Except.error (PyErr.valueError suDimMsg) ∧
    su_is_valid_puzzle G8x9 = Except.error PyErr.assertionError ∧
    PyErr.valueError suDimMsg ≠ PyErr.nameError := by
  refine ⟨by decide, by decide, by decide⟩

/- ------------------------------------------------------------------ -/
/- General theorems. -/

/-- Claim C10, amended.  With asserts enabled, every call of soduku.py's
is_valid_unit raises NameError (its first assert evaluates the unbound name
`puzzle`), and hence is_valid_puzzle and SodukuSolver construction fail with
NameError for every 9x9 input. -/
theorem soduku_name_error_on_9x9 :
    (∀ u : List Nat, su_is_valid_unit u = Except.error PyErr.nameError) ∧
    (∀ g : Grid, shape9x9 g = true →
      su_is_valid_puzzle g = Except.error PyErr.nameError ∧
      su_SodukuSolver_init g = Except.error PyErr.nameError) := by
  constructor
  · intro u
    rfl
  · intro g hg
    have hbody : su_is_valid_puzzle_body su_is_valid_unit g
        = Except.error PyErr.nameError := rfl
    have h1 : su_is_valid_puzzle g = Except.error PyErr.nameError := by
      unfold su_is_valid_puzzle
      rw [hg]
      simpa using hbody
    refine ⟨h1, ?_⟩
    unfold su_SodukuSolver_init
    rw [hg]
    simp [h1]

/-- Witness for soduku_name_error_on_9x9 at the concrete 9x9 grid G5. -/
theorem soduku_name_error_on_9x9_witness :
    shape9x9 G5 = true ∧ su_SodukuSolver_init G5 = Except.error PyErr.nameError :=
  ⟨by decide, (soduku_name_error_on_9x9.2 G5 (by decide)).2⟩

/-- Claim C6, amended.  Every driver iteration that executes the loop body
increments the step counter by exactly one, whether the generated child is
pushed, discarded as a duplicate, or the enumerator is exhausted and the top
is popped; an iteration on which the loop exits leaves the counter
unchanged. -/
theorem step_counter_increments_every_iteration :
    ∀ sv nxt : SudokuSolver,
      (solveStep sv = Except.ok (Sum.inl nxt) → nxt.step = sv.step + 1) ∧
      (solveStep sv = Except.ok (Sum.inr nxt) → nxt.step = sv.step) := by
  intro sv nxt
  constructor <;>
  · intro h
    unfold solveStep at h
    repeat' split at h
    all_goals try simp only [Except.ok.injEq, Sum.inl.injEq, Sum.inr.injEq] at h
    all_goals try (subst h; rfl)
    all_goals try simp_all
    all_goals split at h
    all_goals try simp only [Except.ok.injEq, Sum.inl.injEq, Sum.inr.injEq] at h
    all_goals first
      | (subst h; rfl)
      | simp_all

/-- Witness for step_counter_increments_every_iteration: the first driver
iteration on the root solver for G6 is a continuing iteration whose step
counter rises from 0 to 1. -/
theorem step_counter_increments_every_iteration_witness :
    solveStep (initSolver G6 100 true)
      = Except.ok (Sum.inl (afterStep (initSolver G6 100 true))) ∧
    (afterStep (initSolver G6 100 true)).step = (initSolver G6 100 true).step + 1 := by
  have h : solveStep (initSolver G6 100 true)
      = Except.ok (Sum.inl (afterStep (initSolver G6 100 true))) := by decide
  exact ⟨h, (step_counter_increments_every_iteration (initSolver G6 100 true)
    (afterStep (initSolver G6 100 true))).1 h⟩

/- ------------------------------------------------------------------ -/
/- Supporting lemmas for the constructor taxonomy. -/

lemma cnt_pos_mem (v : Nat) : ∀ l : List Nat, 1 ≤ cnt v l → v ∈ l := by
  intro l
  induction l with
  | nil => intro h; simp [cnt] at h
  | cons w rest ih =>
    intro h
    by_cases hw : w = v
    · subst hw; exact List.mem_cons_self _ _
    · simp only [cnt, if_neg hw, Nat.zero_add] at h
      exact List.mem_cons_of_mem _ (ih h)

lemma getD_mem_or_default {α : Type} (l : List α) (i : Nat) (d : α) :
    l.getD i d ∈ l ∨ l.getD i d = d := by
  induction l generalizing i with
  | nil => right; cases i <;> rfl
  | cons a t ih =>
    cases i with
    | zero => left; exact List.mem_cons_self _ _
    | succ n =>
      rcases ih n with h | h
      · left; rw [List.getD_cons_succ]; exact List.mem_cons_of_mem _ h
      · right; rw [List.getD_cons_succ]; exact h

lemma cellLE {g : Grid} (hE : entriesLE g) (i j : Nat) : cell g i j ≤ 9 := by
  unfold cell
  rcases getD_mem_or_default g i ([] : List Nat) with hr | hr
  · rcases getD_mem_or_default (g.getD i []) j 0 with hv | hv
    · exact hE _ hr _ hv
    · rw [hv]; omega
  · rw [hr]; cases j <;> simp

lemma rowUnit_le {g : Grid} (hE : entriesLE g) (i : Nat) : ∀ v ∈ rowUnit g i, v ≤ 9 := by
  intro v hv
  simp only [rowUnit, List.mem_cons, List.not_mem_nil, or_false] at hv
  rcases hv with rfl | rfl | rfl | rfl | rfl | rfl | rfl | rfl | rfl <;> exact cellLE hE _ _

lemma colUnit_le {g : Grid} (hE : entriesLE g) (j : Nat) : ∀ v ∈ colUnit g j, v ≤ 9 := by
  intro v hv
  simp only [colUnit, List.mem_cons, List.not_mem_nil, or_false] at hv
  rcases hv with rfl | rfl | rfl | rfl | rfl | rfl | rfl | rfl | rfl <;> exact cellLE hE _ _

lemma blockUnit_le {g : Grid} (hE : entriesLE g) (bi bj : Nat) :
    ∀ v ∈ blockUnit g bi bj, v ≤ 9 := by
  intro v hv
  simp only [blockUnit, List.mem_cons, List.not_mem_nil, or_false] at hv
  rcases hv with rfl | rfl | rfl | rfl | rfl | rfl | rfl | rfl | rfl <;> exact cellLE hE _ _

lemma bump_self (check : Nat → Nat) (v : Nat) : bump check v v = check v + 1 := by
  simp [bump]

lemma bump_other (check : Nat → Nat) (v k : Nat) (h : k ≠ v) : bump check v k = check k := by
  simp [bump, h]

lemma unitScanGo_ok (u : List Nat) :
    ∀ (l : List Nat) (check : Nat → Nat),
      (∀ v ∈ l, v ≤ 9) →
      (∀ v, v ≠ 0 → check v + cnt v l ≤ 1) →
      ∃ c2, unitScanGo u l check = Except.ok c2 ∧ c2 0 = check 0 + cnt 0 l := by
  intro l
  induction l with
  | nil =>
    intro check _ _
    exact ⟨check, rfl, by simp [cnt]⟩
  | cons w rest ih =>
    intro check hle hbd
    have hw9 : ¬ 10 ≤ w := by
      have := hle w (List.mem_cons_self _ _)
      omega
    have hcnt1 : ∀ v, cnt v (w :: rest) = (if w = v then 1 else 0) + cnt v rest := by
      intro v; rfl
    have hcond : ¬ ((bump check w w > 1 && w != 0) = true) := by
      by_cases hw0 : w = 0
      · simp [hw0]
      · have h1 := hbd w hw0
        rw [hcnt1 w, if_pos rfl] at h1
        have : check w = 0 := by omega
        simp [bump_self, this]
    obtain ⟨c2, hrun, hc0⟩ := ih (bump check w)
      (fun v hv => hle v (List.mem_cons_of_mem _ hv))
      (by
        intro v hv
        by_cases hvw : v = w
        · subst hvw
          have h1 := hbd v hv
          rw [hcnt1 v, if_pos rfl] at h1
          rw [bump_self]
          omega
        · have h1 := hbd v hv
          rw [hcnt1 v, if_neg (fun hh => hvw hh.symm)] at h1
          rw [bump_other _ _ _ hvw]
          omega)
    refine ⟨c2, ?_, ?_⟩
    · simp only [unitScanGo]
      rw [if_neg hw9, if_neg hcond]
      exact hrun
    · rw [hc0, hcnt1 0]
      by_cases hw0 : w = 0
      · subst hw0; rw [bump_self, if_pos rfl]; omega
      · rw [bump_other _ _ _ (fun hh => hw0 hh.symm), if_neg hw0]; omega

lemma unitScanGo_err (u : List Nat) :
    ∀ (l : List Nat) (check : Nat → Nat),
      (∀ v ∈ l, v ≤ 9) →
      (∃ v, v ≠ 0 ∧ 2 ≤ check v + cnt v l ∧ 1 ≤ cnt v l) →
      unitScanGo u l check = Except.error (PyErr.invalidConfiguration u) := by
  intro l
  induction l with
  | nil =>
    rintro check _ ⟨v, _, _, hc⟩
    simp [cnt] at hc
  | cons w rest ih =>
    rintro check hle ⟨v, hv0, hsum, hocc⟩
    have hw9 : ¬ 10 ≤ w := by
      have := hle w (List.mem_cons_self _ _)
      omega
    have hcnt1 : ∀ x, cnt x (w :: rest) = (if w = x then 1 else 0) + cnt x rest := by
      intro x; rfl
    simp only [unitScanGo]
    rw [if_neg hw9]
    by_cases hcond : (bump check w w > 1 && w != 0) = true
    · rw [if_pos hcond]
    · rw [if_neg hcond]
      apply ih (bump check w) (fun x hx => hle x (List.mem_cons_of_mem _ hx))
      by_cases hvw : v = w
      · subst hvw
        have hcv : check v = 0 := by
          by_contra hne
          apply hcond
          rw [bump_self]
          simp [hv0]
          omega
        rw [hcnt1 v, if_pos rfl] at hsum
        refine ⟨v, hv0, ?_, ?_⟩
        · rw [bump_self]; omega
        · omega
      · rw [hcnt1 v, if_neg (fun hh => hvw hh.symm)] at hsum hocc
        refine ⟨v, hv0, ?_, ?_⟩
        · rw [bump_other _ _ _ hvw]; omega
        · omega

lemma dupU_false_bound {u : List Nat} (hle : ∀ v ∈ u, v ≤ 9) (hnd : dupU u = false) :
    ∀ v, v ≠ 0 → cnt v u ≤ 1 := by
  intro v hv
  by_cases hv9 : v ≤ 9
  · by_contra hc
    have h2 : 2 ≤ cnt v u := by omega
    have htrue : dupU u = true := by
      unfold dupU
      rw [List.any_eq_true]
      exact ⟨v, List.mem_range.mpr (by omega), by simp [hv, h2]⟩
    rw [htrue] at hnd
    cases hnd
  · by_contra hc
    have h1 : 1 ≤ cnt v u := by omega
    exact hv9 (hle v (cnt_pos_mem v u h1))

lemma dupU_true_elim {u : List Nat} (hd : dupU u = true) :
    ∃ v, v ≠ 0 ∧ 2 ≤ cnt v u := by
  unfold dupU at hd
  rw [List.any_eq_true] at hd
  obtain ⟨v, _, hv⟩ := hd
  rw [Bool.and_eq_true] at hv
  refine ⟨v, ?_, ?_⟩
  · simpa using hv.1
  · simpa using hv.2

lemma isValidUnit_ok (u : List Nat) (h9 : u.length = 9) (hle : ∀ v ∈ u, v ≤ 9)
    (hnd : dupU u = false) : isValidUnit u = Except.ok (cnt 0 u) := by
  have hbd : ∀ v, v ≠ 0 → (fun _ => (0 : Nat)) v + cnt v u ≤ 1 := by
    intro v hv
    have := dupU_false_bound hle hnd v hv
    simpa using this
  obtain ⟨c2, hrun, hc0⟩ := unitScanGo_ok u u (fun _ => 0) hle hbd
  unfold isValidUnit
  rw [if_pos (by simp [h9])]
  simp only [hrun]
  rw [hc0]
  simp

lemma isValidUnit_err (u : List Nat) (h9 : u.length = 9) (hle : ∀ v ∈ u, v ≤ 9)
    (hd : dupU u = true) :
    isValidUnit u = Except.error (PyErr.invalidConfiguration u) := by
  obtain ⟨v, hv0, hcnt⟩ := dupU_true_elim hd
  have hrun := unitScanGo_err u u (fun _ => 0) hle
    ⟨v, hv0, by simpa using hcnt, by omega⟩
  unfold isValidUnit
  rw [if_pos (by simp [h9])]
  rw [hrun]

lemma scanRowsCols_ok {g : Grid} (hE : entriesLE g) :
    ∀ idxs : List Nat,
      (∀ i ∈ idxs, dupU (rowUnit g i) = false ∧ dupU (colUnit g i) = false) →
      scanRowsCols g idxs = Except.ok () := by
  intro idxs
  induction idxs with
  | nil => intro _; rfl
  | cons i rest ih =>
    intro h
    have hr := isValidUnit_ok (rowUnit g i) rfl (rowUnit_le hE i)
      (h i (List.mem_cons_self _ _)).1
    have hc := isValidUnit_ok (colUnit g i) rfl (colUnit_le hE i)
      (h i (List.mem_cons_self _ _)).2
    simp only [scanRowsCols, hr, hc]
    exact ih fun j hj => h j (List.mem_cons_of_mem _ hj)

lemma scanRowsCols_err {g : Grid} (hE : entriesLE g) :
    ∀ idxs : List Nat,
      (∃ i ∈ idxs, dupU (rowUnit g i) = true ∨ dupU (colUnit g i) = true) →
      resInvalid (scanRowsCols g idxs) = true := by
  intro idxs
  induction idxs with
  | nil =>
    rintro ⟨i, hi, _⟩
    simp at hi
  | cons k rest ih =>
    rintro ⟨i, hi, hdup⟩
    simp only [scanRowsCols]
    by_cases hrk : dupU (rowUnit g k) = true
    · rw [isValidUnit_err (rowUnit g k) rfl (rowUnit_le hE k) hrk]
      rfl
    · rw [Bool.not_eq_true] at hrk
      rw [isValidUnit_ok (rowUnit g k) rfl (rowUnit_le hE k) hrk]
      by_cases hck : dupU (colUnit g k) = true
      · rw [isValidUnit_err (colUnit g k) rfl (colUnit_le hE k) hck]
        rfl
      · rw [Bool.not_eq_true] at hck
        rw [isValidUnit_ok (colUnit g k) rfl (colUnit_le hE k) hck]
        show resInvalid (scanRowsCols g rest) = true
        apply ih
        rcases List.mem_cons.mp hi with rfl | hmem
        · rcases hdup with hd | hd
          · rw [hrk] at hd; cases hd
          · rw [hck] at hd; cases hd
        · exact ⟨i, hmem, hdup⟩

lemma sumBlocks_ok {g : Grid} (hE : entriesLE g) :
    ∀ (bs : List (Nat × Nat)) (t : Nat),
      (∀ b ∈ bs, dupU (blockUnit g b.1 b.2) = false) →
      sumBlocks g bs t
        = Except.ok (t + (bs.map fun b => cnt 0 (blockUnit g b.1 b.2)).sum) := by
  intro bs
  induction bs with
  | nil => intro t _; simp [sumBlocks]
  | cons b rest ih =>
    intro t h
    have hb := isValidUnit_ok (blockUnit g b.1 b.2) rfl (blockUnit_le hE b.1 b.2)
      (h b (List.mem_cons_self _ _))
    simp only [sumBlocks, hb]
    rw [ih (t + cnt 0 (blockUnit g b.1 b.2)) fun x hx => h x (List.mem_cons_of_mem _ hx)]
    congr 1
    simp only [List.map_cons, List.sum_cons]
    omega

lemma sumBlocks_err {g : Grid} (hE : entriesLE g) :
    ∀ (bs : List (Nat × Nat)) (t : Nat),
      (∃ b ∈ bs, dupU (blockUnit g b.1 b.2) = true) →
      resInvalid (sumBlocks g bs t) = true := by
  intro bs
  induction bs with
  | nil =>
    rintro t ⟨b, hb, _⟩
    simp at hb
  | cons c rest ih =>
    rintro t ⟨b, hb, hdup⟩
    simp only [sumBlocks]
    by_cases hc : dupU (blockUnit g c.1 c.2) = true
    · rw [isValidUnit_err (blockUnit g c.1 c.2) rfl (blockUnit_le hE c.1 c.2) hc]
      rfl
    · rw [Bool.not_eq_true] at hc
      rw [isValidUnit_ok (blockUnit g c.1 c.2) rfl (blockUnit_le hE c.1 c.2) hc]
      show resInvalid (sumBlocks g rest (t + cnt 0 (blockUnit g c.1 c.2))) = true
      apply ih
      rcases List.mem_cons.mp hb with rfl | hmem
      · rw [hc] at hdup; cases hdup
      · exact ⟨b, hmem, hdup⟩

lemma blocks_sum_eq_countZeros (g : Grid) :
    ((blockCoords.map fun b => cnt 0 (blockUnit g b.1 b.2)).sum) = countZeros g := by
  simp only [blockCoords, List.map_cons, List.map_nil, List.sum_cons, List.sum_nil,
    blockUnit, countZeros, rowUnit, cnt, Nat.reduceMul, Nat.reduceAdd, Nat.mul_zero,
    Nat.add_zero, Nat.zero_add]
  ring

lemma gridUnits_dup_false {g : Grid} (hnd : gridHasDup g = false) :
    ∀ u ∈ gridUnits g, dupU u = false := by
  intro u hu
  unfold gridHasDup at hnd
  rw [List.any_eq_false] at hnd
  have := hnd u hu
  rwa [Bool.not_eq_true] at this

lemma isValid_ok {g : Grid} (hE : entriesLE g) (hnd : gridHasDup g = false) :
    isValid g = Except.ok (countZeros g) := by
  have hu := gridUnits_dup_false hnd
  have hrows : ∀ i ∈ [0, 1, 2, 3, 4, 5, 6, 7, 8],
      dupU (rowUnit g i) = false ∧ dupU (colUnit g i) = false := by
    intro i hi
    simp only [List.mem_cons, List.not_mem_nil, or_false] at hi
    rcases hi with rfl | rfl | rfl | rfl | rfl | rfl | rfl | rfl | rfl <;>
      exact ⟨hu _ (by simp [gridUnits]), hu _ (by simp [gridUnits])⟩
  have hblocks : ∀ b ∈ blockCoords, dupU (blockUnit g b.1 b.2) = false := by
    intro b hb
    simp only [blockCoords, List.mem_cons, List.not_mem_nil, or_false] at hb
    rcases hb with rfl | rfl | rfl | rfl | rfl | rfl | rfl | rfl | rfl <;>
      exact hu _ (by simp [gridUnits])
  unfold isValid
  rw [scanRowsCols_ok hE _ hrows]
  show sumBlocks g blockCoords 0 = Except.ok (countZeros g)
  rw [sumBlocks_ok hE blockCoords 0 hblocks, blocks_sum_eq_countZeros, Nat.zero_add]

lemma isValid_err {g : Grid} (hE : entriesLE g) (hd : gridHasDup g = true) :
    resInvalid (isValid g) = true := by
  by_cases hrc : ∃ i ∈ [0, 1, 2, 3, 4, 5, 6, 7, 8],
      dupU (rowUnit g i) = true ∨ dupU (colUnit g i) = true
  · have herr := scanRowsCols_err hE _ hrc
    unfold isValid
    cases hs : scanRowsCols g [0, 1, 2, 3, 4, 5, 6, 7, 8] with
    | error e => rw [hs] at herr; exact herr
    | ok x => rw [hs] at herr; simp [resInvalid] at herr
  · push_neg at hrc
    have hrows : ∀ i ∈ [0, 1, 2, 3, 4, 5, 6, 7, 8],
        dupU (rowUnit g i) = false ∧ dupU (colUnit g i) = false := by
      intro i hi
      have h2 := hrc i hi
      exact ⟨Bool.not_eq_true _ |>.mp h2.1, Bool.not_eq_true _ |>.mp h2.2⟩
    unfold isValid
    rw [scanRowsCols_ok hE _ hrows]
    show resInvalid (sumBlocks g blockCoords 0) = true
    apply sumBlocks_err hE
    have hd2 : ∃ u ∈ gridUnits g, dupU u = true := by
      unfold gridHasDup at hd
      exact List.any_eq_true.mp hd
    obtain ⟨u, hu, hdup⟩ := hd2
    simp only [gridUnits, List.mem_cons, List.not_mem_nil, or_false] at hu
    rcases hu with rfl|rfl|rfl|rfl|rfl|rfl|rfl|rfl|rfl|rfl|rfl|rfl|rfl|rfl|rfl|rfl|rfl|rfl|rfl|rfl|rfl|rfl|rfl|rfl|rfl|rfl|rfl
    · rw [(hrows 0 (by simp)).1] at hdup; cases hdup
    · rw [(hrows 1 (by simp)).1] at hdup; cases hdup
    · rw [(hrows 2 (by simp)).1] at hdup; cases hdup
    · rw [(hrows 3 (by simp)).1] at hdup; cases hdup
    · rw [(hrows 4 (by simp)).1] at hdup; cases hdup
    · rw [(hrows 5 (by simp)).1] at hdup; cases hdup
    · rw [(hrows 6 (by simp)).1] at hdup; cases hdup
    · rw [(hrows 7 (by simp)).1] at hdup; cases hdup
    · rw [(hrows 8 (by simp)).1] at hdup; cases hdup
    · rw [(hrows 0 (by simp)).2] at hdup; cases hdup
    · rw [(hrows 1 (by simp)).2] at hdup; cases hdup
    · rw [(hrows 2 (by simp)).2] at hdup; cases hdup
    · rw [(hrows 3 (by simp)).2] at hdup; cases hdup
    · rw [(hrows 4 (by simp)).2] at hdup; cases hdup
    · rw [(hrows 5 (by simp)).2] at hdup; cases hdup
    · rw [(hrows 6 (by simp)).2] at hdup; cases hdup
    · rw [(hrows 7 (by simp)).2] at hdup; cases hdup
    · rw [(hrows 8 (by simp)).2] at hdup; cases hdup
    · exact ⟨(0, 0), by simp [blockCoords], hdup⟩
    · exact ⟨(0, 1), by simp [blockCoords], hdup⟩
    · exact ⟨(0, 2), by simp [blockCoords], hdup⟩
    · exact ⟨(1, 0), by simp [blockCoords], hdup⟩
    · exact ⟨(1, 1), by simp [blockCoords], hdup⟩
    · exact ⟨(1, 2), by simp [blockCoords], hdup⟩
    · exact ⟨(2, 0), by simp [blockCoords], hdup⟩
    · exact ⟨(2, 1), by simp [blockCoords], hdup⟩
    · exact ⟨(2, 2), by simp [blockCoords], hdup⟩

/-- Claim C8.  For every input matrix over the spec's value domain 0..9:
construction fails with the dimension ValueError when the input is not 9x9;
with the InvalidConfiguration error when the (9x9) input has a duplicate
numeral in some row, column or block; with the already-solved ValueError when
it is duplicate-free and has no empty cell; and otherwise succeeds with a
stack holding exactly the root configuration.  The three failures carry
pairwise distinguishable exception values. -/
theorem solver_construction_taxonomy (g : Grid) (lim : Nat) (cis : Bool)
    (hE : entriesLE g) :
    (shape9x9 g = false → mkSolver g lim cis = Except.error (PyErr.valueError dimMsg)) ∧
    (shape9x9 g = true → gridHasDup g = true →
        resInvalid (mkSolver g lim cis) = true) ∧
    (shape9x9 g = true → gridHasDup g = false → countZeros g = 0 →
        mkSolver g lim cis = Except.error (PyErr.valueError solvedMsg)) ∧
    (shape9x9 g = true → gridHasDup g = false → 0 < countZeros g →
        mkSolver g lim cis = Except.ok (initSolver g lim cis)) ∧
    (errInvalid (PyErr.valueError dimMsg) = false ∧
     errInvalid (PyErr.valueError solvedMsg) = false ∧
     dimMsg ≠ solvedMsg) := by
  refine ⟨?_, ?_, ?_, ?_, rfl, rfl, by decide⟩
  · intro hs
    unfold mkSolver
    rw [if_neg (by simp [hs])]
  · intro hs hd
    unfold mkSolver
    rw [if_pos hs]
    have herr := isValid_err hE hd
    cases hv : isValid g with
    | error e => rw [hv] at herr; simpa using herr
    | ok x => rw [hv] at herr; simp [resInvalid] at herr
  · intro hs hd h0
    unfold mkSolver
    rw [if_pos hs]
    simp only [isValid_ok hE hd, h0]
    rfl
  · intro hs hd h0
    unfold mkSolver
    rw [if_pos hs]
    simp only [isValid_ok hE hd]
    rw [if_neg (by simp; omega)]

/-- Witness for solver_construction_taxonomy: the success case at the
concrete grid G5. -/
theorem solver_construction_taxonomy_witness :
    entriesLE G5 ∧ shape9x9 G5 = true ∧ gridHasDup G5 = false ∧
    0 < countZeros G5 ∧
    mkSolver G5 100 true = Except.ok (initSolver G5 100 true) := by
  refine ⟨by decide, by decide, by decide, by decide, ?_⟩
  exact (solver_construction_taxonomy G5 100 true (by decide)).2.2.2.1
    (by decide) (by decide) (by decide)
